import Mathlib

/-!
Verification of the boilert sampling/aggregation/publication core.

The Rust source (src/main.rs, src/config.rs, src/sensors.rs) is shallowly
embedded below.  `f32` values are modelled as exact rationals (ℚ); machine
time (`std::time::Instant`) is modelled as a natural number of seconds, with
`Instant::duration_since` becoming truncated natural subtraction (both
saturate at zero).  Sensor reads (`sensors::read_temperature`) are external
and fallible; they are modelled as an environment `String → Option ℚ` mapping
a 1-Wire id to `some temperature` (Ok) or `none` (Err).  String formatting of
a float (`f32::to_string`) is modelled by an arbitrary parameter
`fmt : ℚ → String`.
-/

namespace Boilert

/-- Rust `config::SensorConfig`: name and 1-Wire id of one sensor. -/
structure SensorConfig where
  name : String
  id : String

/-- Rust `config::MqttConfig`: broker host, port and base topic. -/
structure MqttConfig where
  host : String
  port : Nat
  base_topic : String

/-- Rust `config::BoilerConfig`: volume (l), reference temperature (°C) and
energy coefficient (Wh per liter per Kelvin). -/
structure BoilerConfig where
  volume_l : ℚ
  reference_temp_c : ℚ
  energy_coefficient : ℚ

/-- Rust `config::Config`: the root configuration object. -/
structure Config where
  mqtt : MqttConfig
  boiler : BoilerConfig
  sensors : List SensorConfig

/-- Source `main.rs` line 15: `const HISTORY_POINTS: usize = 96;`. -/
def HISTORY_POINTS : Nat := 96

/-- Source `main.rs` lines 17-20: `struct SensorHistory { points: Vec<f32>,
last_update: std::time::Instant }`. -/
structure SensorHistory where
  points : List ℚ
  last_update : Nat

/-- Rust `SensorHistory::new` (main.rs lines 23-28): 96 copies of the initial
value, `last_update` set to the current instant. -/
def SensorHistory.new (initial_val : ℚ) (now : Nat) : SensorHistory :=
  ⟨List.replicate HISTORY_POINTS initial_val, now⟩

/-- Rust `SensorHistory::add_point` (main.rs lines 30-34): `points.remove(0)`
followed by `points.push(val)`, and `last_update` reset to now.
(`Vec::remove(0)` would panic on an empty vector; `List.drop 1` is total,
and every history in the program has 96 ≥ 1 points.) -/
def SensorHistory.add_point (h : SensorHistory) (val : ℚ) (now : Nat) : SensorHistory :=
  ⟨h.points.drop 1 ++ [val], now⟩

/-- A sequence of `add_point` calls, each with its value and instant. -/
def addAll (h : SensorHistory) (vs : List (ℚ × Nat)) : SensorHistory :=
  vs.foldl (fun h p => h.add_point p.1 p.2) h

/-- One step of the sliding window on the underlying list. -/
theorem add_point_points (h : SensorHistory) (v : ℚ) (t : Nat) :
    (h.add_point v t).points = h.points.drop 1 ++ [v] := rfl

/-- Folding `add_point` over a nonempty buffer is a sliding window:
the result keeps the last `|init|` elements of `init ++ values`. -/
theorem addAll_points : ∀ (vs : List (ℚ × Nat)) (h : SensorHistory),
    h.points ≠ [] →
    (addAll h vs).points = (h.points ++ vs.map Prod.fst).drop vs.length := by
  intro vs
  induction vs with
  | nil => intro h _; simp [addAll]
  | cons p vs ih =>
    intro h hne
    obtain ⟨a, t, ha⟩ := List.exists_cons_of_ne_nil hne
    have step : addAll h (p :: vs) = addAll (h.add_point p.1 p.2) vs := rfl
    have hne2 : (h.add_point p.1 p.2).points ≠ [] := by
      simp [SensorHistory.add_point]
    rw [step, ih _ hne2, add_point_points, ha]
    simp [List.append_assoc]

/-- Source `main.rs` line 137: `let avg_temp: f32 = if temps.is_empty() { 0.0 }
else { temps.iter().sum::<f32>() / temps.len() as f32 };`. -/
def avg_temp (temps : List ℚ) : ℚ :=
  if temps.isEmpty then 0 else temps.sum / (temps.length : ℚ)

/-- Source `main.rs` line 138:
`let delta_t = (avg_temp - sensor_config.boiler.reference_temp_c).max(0.0);`. -/
def delta_t (b : BoilerConfig) (temps : List ℚ) : ℚ :=
  max (avg_temp temps - b.reference_temp_c) 0

/-- Source `main.rs` line 139: `let energy_kwh = (sensor_config.boiler.volume_l *
delta_t * sensor_config.boiler.energy_coefficient) / 1000.0;`. -/
def energy_kwh (b : BoilerConfig) (temps : List ℚ) : ℚ :=
  b.volume_l * delta_t b temps * b.energy_coefficient / 1000

/-- Rust's `f32::clamp(lo, hi)` (main.rs line 42):
`if self < lo { lo } else if self > hi { hi } else { self }`. -/
def rClamp (lo hi x : ℚ) : ℚ := if x < lo then lo else if x > hi then hi else x

/-- The coordinate pairs emitted by `SensorHistory::to_svg_path`
(main.rs lines 36-50): one pair per stored point, `x = i as f32`,
`y = (100.0 - temp).clamp(0.0, 100.0)`. -/
def toSvgCoords (points : List ℚ) : List (ℚ × ℚ) :=
  points.enum.map (fun p => ((p.1 : ℚ), rClamp 0 100 (100 - p.2)))

/-- Rust `SensorHistory::to_svg_path` (main.rs lines 36-50): the rendered string,
`"M x y "` for the first point and `"L x y "` for the rest, with number
formatting abstracted as `fmt`. -/
def to_svg_path (fmt : ℚ → String) (points : List ℚ) : String :=
  String.join (points.enum.map (fun p =>
    (if p.1 = 0 then "M " else "L ") ++ fmt (p.1 : ℚ) ++ " "
      ++ fmt (rClamp 0 100 (100 - p.2)) ++ " "))

/-- The per-sensor read in the sampling loop (main.rs lines 110-116):
`match sensors::read_temperature(&sensor.id) { Ok(temp) => temp,
Err(e) => { eprintln!(...); 0.0 } }`.  The external read is the
environment `env`. -/
def read_result (env : String → Option ℚ) (s : SensorConfig) : ℚ :=
  match env s.id with
  | some temp => temp
  | none => 0

/-- The readings gathered in one tick (main.rs lines 108-117): one entry per
configured sensor, in configuration order. -/
def tickTemps (env : String → Option ℚ) (sensors : List SensorConfig) : List ℚ :=
  sensors.map (read_result env)

/-- Source `main.rs` line 103:
`let history_update_interval = Duration::from_secs(15 * 60);` (seconds). -/
def history_update_interval : Nat := 15 * 60

/-- The mutable state of the sampling loop: the per-sensor histories
(main.rs line 92) and `last_history_update` (main.rs line 102). -/
structure LoopState where
  history : List SensorHistory
  last_history_update : Nat

/-- The history-update loop body (main.rs lines 128-132):
`for (i, &temp) in temps.iter().enumerate() { if i < history.len()
{ history[i].add_point(temp); } }` — pairwise `add_point`, extra histories
untouched, extra temps ignored. -/
def updateHistories (history : List SensorHistory) (temps : List ℚ)
    (now : Nat) : List SensorHistory :=
  match history, temps with
  | [], _ => []
  | h :: hs, [] => h :: hs
  | h :: hs, t :: ts => h.add_point t now :: updateHistories hs ts now

/-- The observable effects of one tick: the readings, the per-sensor MQTT
publications (topic, payload), the energy publication, and the snapshot the
UI closure applies (main.rs lines 145-168: slots s1..s6, so at most the
first six readings and paths, plus the energy value). -/
structure TickOutput where
  temps : List ℚ
  sensor_publishes : List (String × String)
  energy_publish : String × String
  ui_temps : List ℚ
  ui_paths : List (List (ℚ × ℚ))
  ui_energy : ℚ

/-- One iteration of the sampling loop body (main.rs lines 105-169), with
the tick's instant `now` and read environment `env` as inputs.  Publish
results are discarded in the source (`let _ = client.publish(..)`), so they
are outputs only and nothing in the state depends on them. -/
def tick (cfg : Config) (env : String → Option ℚ) (fmt : ℚ → String)
    (now : Nat) (st : LoopState) : LoopState × TickOutput :=
  let temps := tickTemps env cfg.sensors
  let pubs := (cfg.sensors.zip temps).map
    (fun p => (cfg.mqtt.base_topic ++ "/" ++ p.1.name, fmt p.2))
  let update_history := history_update_interval ≤ now - st.last_history_update
  let history1 := if update_history then updateHistories st.history temps now
    else st.history
  let last1 := if update_history then now else st.last_history_update
  let e := energy_kwh cfg.boiler temps
  let epub := (cfg.mqtt.base_topic ++ "/energy", fmt e)
  let paths := history1.map (fun h => toSvgCoords h.points)
  (⟨history1, last1⟩, ⟨temps, pubs, epub, temps.take 6, paths.take 6, e⟩)

/-- Folding the loop body over a sequence of (instant, environment) ticks. -/
def runTicks (cfg : Config) (fmt : ℚ → String)
    (inputs : List (Nat × (String → Option ℚ))) (st : LoopState) : LoopState :=
  inputs.foldl (fun s p => (tick cfg p.2 fmt p.1 s).1) st

/-- The startup history seeding (main.rs lines 92-96):
`let val = sensors::read_temperature(&sensor.id).unwrap_or(20.0);
history.push(SensorHistory::new(val));`. -/
def initHistories (env : String → Option ℚ) (sensors : List SensorConfig)
    (t : Nat) : List SensorHistory :=
  sensors.map (fun s => SensorHistory.new ((env s.id).getD 20) t)

/-- An environment identical to `env` except that reads of the sensor id
`fid` fail. -/
def failedEnv (env : String → Option ℚ) (fid : String) : String → Option ℚ :=
  fun id => if id = fid then none else env id

/-- Test fixture: an environment where every sensor reads 21 °C. -/
def env0 : String → Option ℚ := fun _ => some 21

/-- Test fixture: a fixed float formatter. -/
def fmt0 : ℚ → String := fun _ => "v"

/-- Test fixture: three configured sensors. -/
def sensors3 : List SensorConfig := [⟨"T1", "id1"⟩, ⟨"T2", "id2"⟩, ⟨"T3", "id3"⟩]

/-- Test fixture: a configuration with three sensors and the reference
boiler parameters. -/
def cfg3 : Config := ⟨⟨"host", 1883, "boiler"⟩, ⟨100, 20, 1162 / 1000⟩, sensors3⟩

/-- Test fixture: loop state seeded from `env0` at instant 0. -/
def st3 : LoopState := ⟨initHistories env0 sensors3 0, 0⟩

/-- Test fixture: seven configured sensors. -/
def sensors7 : List SensorConfig :=
  [⟨"T1", "id1"⟩, ⟨"T2", "id2"⟩, ⟨"T3", "id3"⟩, ⟨"T4", "id4"⟩,
   ⟨"T5", "id5"⟩, ⟨"T6", "id6"⟩, ⟨"T7", "id7"⟩]

/-- Test fixture: a configuration with seven sensors. -/
def cfg7 : Config := ⟨⟨"host", 1883, "boiler"⟩, ⟨100, 20, 1162 / 1000⟩, sensors7⟩

/-- C1: `SensorHistory::new(v)` yields a track of exactly 96 points all equal
to v; the length stays 96 after any number of `add_point` calls; after K ≥ 96
additions the track is exactly the last 96 added values in order, and after
K < 96 additions it is the oldest 96−K seed values followed by the K added
values in order. -/
theorem claim1_history_sliding_window :
    (∀ (v : ℚ) (t : Nat), (SensorHistory.new v t).points = List.replicate 96 v)
    ∧ (∀ (v : ℚ) (t : Nat) (vs : List (ℚ × Nat)),
        (addAll (SensorHistory.new v t) vs).points.length = 96)
    ∧ (∀ (v : ℚ) (t : Nat) (vs : List (ℚ × Nat)), 96 ≤ vs.length →
        (addAll (SensorHistory.new v t) vs).points
          = (vs.map Prod.fst).drop (vs.length - 96))
    ∧ (∀ (v : ℚ) (t : Nat) (vs : List (ℚ × Nat)), vs.length < 96 →
        (addAll (SensorHistory.new v t) vs).points
          = List.replicate (96 - vs.length) v ++ vs.map Prod.fst) := by
  have hnew : ∀ (v : ℚ) (t : Nat),
      (SensorHistory.new v t).points = List.replicate 96 v := by
    intro v t; rfl
  have hbase : ∀ (v : ℚ) (t : Nat) (vs : List (ℚ × Nat)),
      (addAll (SensorHistory.new v t) vs).points
        = (List.replicate 96 v ++ vs.map Prod.fst).drop vs.length := by
    intro v t vs
    rw [addAll_points vs _ (by simp [SensorHistory.new, HISTORY_POINTS]), hnew]
  refine ⟨hnew, ?_, ?_, ?_⟩
  · intro v t vs
    rw [hbase, List.length_drop, List.length_append, List.length_replicate,
      List.length_map]
    omega
  · intro v t vs hK
    rw [hbase, List.drop_append_eq_append_drop,
      List.drop_eq_nil_of_le (by simpa using hK)]
    simp
  · intro v t vs hK
    rw [hbase, List.drop_append_eq_append_drop, List.drop_replicate,
      List.length_replicate, Nat.sub_eq_zero_of_le (le_of_lt hK), List.drop_zero]

/-- Concrete instantiation of `claim1_history_sliding_window`: after 2 < 96
additions, 94 seed values then the 2 added values; after 97 ≥ 96 additions,
the last 96 added values. -/
theorem claim1_history_sliding_window_witness :
    ((addAll (SensorHistory.new 5 0) [(7, 1), (8, 2)]).points
        = List.replicate (96 - [((7 : ℚ), (1 : Nat)), (8, 2)].length) 5
            ++ [((7 : ℚ), (1 : Nat)), (8, 2)].map Prod.fst)
    ∧ ((addAll (SensorHistory.new 5 0) (List.replicate 97 ((3 : ℚ), (1 : Nat)))).points
        = ((List.replicate 97 ((3 : ℚ), (1 : Nat))).map Prod.fst).drop
            ((List.replicate 97 ((3 : ℚ), (1 : Nat))).length - 96)) :=
  ⟨claim1_history_sliding_window.2.2.2 5 0 [(7, 1), (8, 2)] (by simp),
   claim1_history_sliding_window.2.2.1 5 0 (List.replicate 97 ((3 : ℚ), (1 : Nat)))
     (by simp)⟩

/-- C2 counterexample: the energy estimate over an empty readings sequence is
NOT 0 for every params value.  With `volume_l = 1000`, `reference_temp_c = -1`
and `energy_coefficient = 1`, the empty average 0 exceeds the reference
temperature, so `delta_t = 1` and the energy is 1, not 0. -/
theorem claim2_empty_energy_cex : energy_kwh ⟨1000, -1, 1⟩ [] ≠ 0 := by
  norm_num [energy_kwh, delta_t, avg_temp]

/-- C2 amended: over an empty readings sequence the energy estimate is 0
whenever the configured reference temperature is nonnegative (the average
temperature of no readings is defined as 0, so a negative reference
temperature yields a positive `delta_t`). -/
theorem claim2_empty_energy (b : BoilerConfig) (h : 0 ≤ b.reference_temp_c) :
    energy_kwh b [] = 0 := by
  have hd : delta_t b [] = 0 := by
    rw [delta_t, avg_temp]
    simp only [List.isEmpty_nil, if_true, zero_sub]
    rw [max_eq_right (by linarith)]
  rw [energy_kwh, hd]
  ring

/-- Concrete instantiation of `claim2_empty_energy` at the reference
parameters volume 100 l, reference 20 °C, coefficient 1.162. -/
theorem claim2_empty_energy_witness :
    energy_kwh ⟨100, 20, 1162 / 1000⟩ [] = 0 :=
  claim2_empty_energy ⟨100, 20, 1162 / 1000⟩ (by norm_num)

/-- C3: for nonempty readings the energy estimate is
`volume_l * max (average - reference_temp_c) 0 * energy_coefficient / 1000`;
whenever the average does not exceed the reference temperature the result is
exactly 0 (never negative); in particular a single reading 10 against
reference 20 gives 0 for every volume and coefficient. -/
theorem claim3_energy_formula (b : BoilerConfig) (temps : List ℚ)
    (h : temps ≠ []) :
    energy_kwh b temps
      = b.volume_l * max (temps.sum / (temps.length : ℚ) - b.reference_temp_c) 0
          * b.energy_coefficient / 1000
    ∧ (avg_temp temps ≤ b.reference_temp_c → energy_kwh b temps = 0)
    ∧ (∀ v c : ℚ, energy_kwh ⟨v, 20, c⟩ [10] = 0) := by
  refine ⟨?_, ?_, ?_⟩
  · rw [energy_kwh, delta_t, avg_temp, if_neg (by simpa using h)]
  · intro hle
    have hd : delta_t b temps = 0 := by
      rw [delta_t, max_eq_right (by linarith)]
    rw [energy_kwh, hd]
    ring
  · intro v c
    norm_num [energy_kwh, delta_t, avg_temp]

/-- Concrete instantiation of `claim3_energy_formula` for the single reading
10 °C against reference 20 °C: the clamped energy is 0. -/
theorem claim3_energy_formula_witness :
    [(10 : ℚ)] ≠ [] ∧ energy_kwh ⟨100, 20, 1162 / 1000⟩ [10] = 0 :=
  ⟨by simp,
   (claim3_energy_formula ⟨100, 20, 1162 / 1000⟩ [10] (by simp)).2.1
     (by norm_num [avg_temp])⟩

/-- C9: for readings [20, 30] and params volume 100, reference 20,
coefficient 1.162, the average is 25, `delta_t` is 5 and the energy is
0.581 kWh.  (Modelled in exact rational arithmetic; the program's `f32`
evaluation of the same expressions produces the `f32` values nearest to
these same decimals.) -/
theorem claim9_energy_example :
    avg_temp [20, 30] = 25
    ∧ delta_t ⟨100, 20, 1162 / 1000⟩ [20, 30] = 5
    ∧ energy_kwh ⟨100, 20, 1162 / 1000⟩ [20, 30] = 581 / 1000 := by
  refine ⟨?_, ?_, ?_⟩ <;> norm_num [energy_kwh, delta_t, avg_temp]

/-- C4: the path projection emits exactly one coordinate pair per stored
point; the pair at index i is `(i, clamp (100 - value) 0 100)`; concretely,
value 0 maps to y = 100, value 100 to y = 0, value 150 clamps to y = 0 and
value -50 clamps to y = 100.  (The projection is a pure function of the
points, so it cannot mutate the track.) -/
theorem claim4_svg_projection :
    (∀ points : List ℚ, (toSvgCoords points).length = points.length)
    ∧ (∀ (points : List ℚ) (i : Nat),
        (toSvgCoords points)[i]?
          = points[i]?.map (fun v => ((i : ℚ), rClamp 0 100 (100 - v))))
    ∧ toSvgCoords [0, 100, 150, -50] = [(0, 100), (1, 0), (2, 0), (3, 100)] := by
  refine ⟨?_, ?_, ?_⟩
  · intro points
    simp [toSvgCoords]
  · intro points i
    simp [toSvgCoords, Option.map_map]
    rfl
  · norm_num [toSvgCoords, rClamp, List.enum, List.enumFrom]

/-- The function `updateHistories` preserves the number of histories. -/
theorem length_updateHistories :
    ∀ (hs : List SensorHistory) (ts : List ℚ) (now : Nat),
      (updateHistories hs ts now).length = hs.length := by
  intro hs
  induction hs with
  | nil => intro ts now; cases ts <;> simp [updateHistories]
  | cons h hs ih =>
    intro ts now
    cases ts with
    | nil => simp [updateHistories]
    | cons t ts => simp [updateHistories, ih]

/-- Entry i of `updateHistories`: `add_point` where both a history and a
temperature exist at i, the untouched history where only the history
exists. -/
theorem getElem?_updateHistories :
    ∀ (hs : List SensorHistory) (ts : List ℚ) (now i : Nat),
      (updateHistories hs ts now)[i]? =
        match hs[i]?, ts[i]? with
        | some h, some t => some (h.add_point t now)
        | some h, none => some h
        | none, _ => none := by
  intro hs
  induction hs with
  | nil => intro ts now i; cases ts <;> simp [updateHistories]
  | cons h hs ih =>
    intro ts now i
    cases ts with
    | nil =>
      cases i with
      | zero => simp [updateHistories]
      | succ n =>
        simp only [updateHistories, List.getElem?_cons_succ]
        cases hs[n]? <;> rfl
    | cons t ts => cases i <;> simp [updateHistories, ih]

/-- Zipping a list with its own map enumerates each element with its image. -/
theorem zip_map_self {α β : Type} (g : α → β) :
    ∀ l : List α, l.zip (l.map g) = l.map (fun a => (a, g a)) := by
  intro l
  induction l with
  | nil => rfl
  | cons a l ih => simp [ih]

/-- The per-sensor publications of one tick: one per configured sensor, in
order, on topic `base_topic ++ "/" ++ name` with the formatted reading. -/
theorem tick_sensor_publishes (cfg : Config) (env : String → Option ℚ)
    (fmt : ℚ → String) (now : Nat) (st : LoopState) :
    (tick cfg env fmt now st).2.sensor_publishes
      = cfg.sensors.map
          (fun s => (cfg.mqtt.base_topic ++ "/" ++ s.name, fmt (read_result env s))) := by
  show (cfg.sensors.zip (tickTemps env cfg.sensors)).map _ = _
  rw [tickTemps, zip_map_self, List.map_map]
  rfl

/-- When the slow gate is closed the tick leaves the loop state unchanged. -/
theorem tick_no_update (cfg : Config) (env : String → Option ℚ)
    (fmt : ℚ → String) (now : Nat) (st : LoopState)
    (h : now - st.last_history_update < history_update_interval) :
    (tick cfg env fmt now st).1 = st := by
  cases st with
  | mk hist last => simp [tick, Nat.not_le.mpr h]

/-- When the slow gate is open the tick applies `updateHistories` with this
tick's readings and resets the gate's reference time to now. -/
theorem tick_update (cfg : Config) (env : String → Option ℚ)
    (fmt : ℚ → String) (now : Nat) (st : LoopState)
    (h : history_update_interval ≤ now - st.last_history_update) :
    (tick cfg env fmt now st).1.history
        = updateHistories st.history (tickTemps env cfg.sensors) now
      ∧ (tick cfg env fmt now st).1.last_history_update = now := by
  constructor <;> simp [tick, h]

/-- C6: history mutations happen exactly when the elapsed time since the
last history update reaches the 15-minute interval; such an update applies
`add_point` with the tick's readings and resets the gate's reference time to
now; any run of ticks all falling short of the threshold performs zero
history mutations. -/
theorem claim6_history_time_gate :
    (∀ (cfg : Config) (env : String → Option ℚ) (fmt : ℚ → String)
        (now : Nat) (st : LoopState),
        now - st.last_history_update < history_update_interval →
        (tick cfg env fmt now st).1 = st)
    ∧ (∀ (cfg : Config) (env : String → Option ℚ) (fmt : ℚ → String)
        (now : Nat) (st : LoopState),
        history_update_interval ≤ now - st.last_history_update →
        (tick cfg env fmt now st).1.history
            = updateHistories st.history (tickTemps env cfg.sensors) now
          ∧ (tick cfg env fmt now st).1.last_history_update = now)
    ∧ (∀ (cfg : Config) (fmt : ℚ → String)
        (inputs : List (Nat × (String → Option ℚ))) (st : LoopState),
        (∀ p ∈ inputs, p.1 - st.last_history_update < history_update_interval) →
        runTicks cfg fmt inputs st = st) := by
  refine ⟨tick_no_update, tick_update, ?_⟩
  intro cfg fmt inputs st
  induction inputs with
  | nil => intro _; rfl
  | cons p ps ih =>
    intro h
    have h1 : (tick cfg p.2 fmt p.1 st).1 = st :=
      tick_no_update cfg p.2 fmt p.1 st (h p (List.mem_cons_self p ps))
    have step : runTicks cfg fmt (p :: ps) st
        = runTicks cfg fmt ps (tick cfg p.2 fmt p.1 st).1 := rfl
    rw [step, h1]
    exact ih (fun q hq => h q (List.mem_cons_of_mem p hq))

/-- Concrete instantiation of `claim6_history_time_gate`: two ticks at
instants 1 and 2, both less than 900 s past the last update at 0, leave the
state untouched. -/
theorem claim6_history_time_gate_witness :
    runTicks cfg3 fmt0 [(1, env0), (2, env0)] st3 = st3 :=
  claim6_history_time_gate.2.2 cfg3 fmt0 [(1, env0), (2, env0)] st3 (by
    intro p hp
    have hp2 : p = (1, env0) ∨ p = (2, env0) := by simpa using hp
    rcases hp2 with h | h <;> subst h <;> norm_num [st3, history_update_interval])

/-- C8: every tick publishes each sensor's reading exactly once, in
configuration order, on topic `base_topic ++ "/" ++ name` with the reading's
formatted decimal string as payload, and publishes the energy value exactly
once on topic `base_topic ++ "/energy"`.  (The source discards the publish
results — `let _ = client.publish(..)` — so no output of the tick depends on
a publication outcome.) -/
theorem claim8_mqtt_publications (cfg : Config) (env : String → Option ℚ)
    (fmt : ℚ → String) (now : Nat) (st : LoopState) :
    (tick cfg env fmt now st).2.sensor_publishes
        = cfg.sensors.map
            (fun s => (cfg.mqtt.base_topic ++ "/" ++ s.name, fmt (read_result env s)))
    ∧ (tick cfg env fmt now st).2.sensor_publishes.length = cfg.sensors.length
    ∧ (tick cfg env fmt now st).2.energy_publish
        = (cfg.mqtt.base_topic ++ "/energy",
            fmt (energy_kwh cfg.boiler (tickTemps env cfg.sensors))) := by
  refine ⟨tick_sensor_publishes cfg env fmt now st, ?_, rfl⟩
  rw [tick_sensor_publishes]
  simp

/-- C5: a failing read for the sensor id `fid` substitutes the sentinel 0
for exactly the sensors with that id; the cycle still produces one reading
and one publication per configured sensor, and the readings, publications
and history entries of every sensor with a different id are unchanged
relative to the run where the read succeeds. -/
theorem claim5_failure_isolation (cfg : Config) (env : String → Option ℚ)
    (fmt : ℚ → String) (now : Nat) (st : LoopState) (fid : String) (i : Nat)
    (hi : i < cfg.sensors.length) :
    (tick cfg (failedEnv env fid) fmt now st).2.temps.length = cfg.sensors.length
    ∧ (tick cfg (failedEnv env fid) fmt now st).2.sensor_publishes.length
        = cfg.sensors.length
    ∧ (cfg.sensors[i].id ≠ fid →
        (tick cfg (failedEnv env fid) fmt now st).2.temps[i]?
            = (tick cfg env fmt now st).2.temps[i]?
        ∧ (tick cfg (failedEnv env fid) fmt now st).2.sensor_publishes[i]?
            = (tick cfg env fmt now st).2.sensor_publishes[i]?
        ∧ (tick cfg (failedEnv env fid) fmt now st).1.history[i]?
            = (tick cfg env fmt now st).1.history[i]?)
    ∧ (cfg.sensors[i].id = fid →
        (tick cfg (failedEnv env fid) fmt now st).2.temps[i]? = some 0) := by
  have hget : cfg.sensors[i]? = some cfg.sensors[i] :=
    List.getElem?_eq_getElem hi
  have htempsT : ∀ e : String → Option ℚ,
      (tickTemps e cfg.sensors)[i]? = some (read_result e cfg.sensors[i]) := by
    intro e
    rw [tickTemps, List.getElem?_map, hget]
    rfl
  have htick2 : ∀ e : String → Option ℚ,
      (tick cfg e fmt now st).2.temps = tickTemps e cfg.sensors := fun _ => rfl
  have hrr : cfg.sensors[i].id ≠ fid →
      read_result (failedEnv env fid) cfg.sensors[i]
        = read_result env cfg.sensors[i] := by
    intro h
    simp [read_result, failedEnv, h]
  refine ⟨?_, ?_, ?_, ?_⟩
  · rw [htick2, tickTemps]
    simp
  · rw [tick_sensor_publishes]
    simp
  · intro hne
    have ht : (tickTemps (failedEnv env fid) cfg.sensors)[i]?
        = (tickTemps env cfg.sensors)[i]? := by
      rw [htempsT, htempsT, hrr hne]
    refine ⟨?_, ?_, ?_⟩
    · rw [htick2, htick2, ht]
    · rw [tick_sensor_publishes, tick_sensor_publishes, List.getElem?_map,
        List.getElem?_map, hget]
      simp [hrr hne]
    · by_cases hg : history_update_interval ≤ now - st.last_history_update
      · rw [(tick_update cfg (failedEnv env fid) fmt now st hg).1,
          (tick_update cfg env fmt now st hg).1,
          getElem?_updateHistories, getElem?_updateHistories, ht]
      · rw [tick_no_update cfg (failedEnv env fid) fmt now st (Nat.not_le.mp hg),
          tick_no_update cfg env fmt now st (Nat.not_le.mp hg)]
  · intro heq
    rw [htick2, htempsT]
    simp [read_result, failedEnv, heq]

/-- Concrete instantiation of `claim5_failure_isolation`: with three sensors
and reads of "id2" failing, the cycle still yields three readings, the
first sensor's reading is unchanged, and the second sensor reads the
sentinel 0. -/
theorem claim5_failure_isolation_witness :
    (tick cfg3 (failedEnv env0 "id2") fmt0 0 st3).2.temps.length = cfg3.sensors.length
    ∧ (tick cfg3 (failedEnv env0 "id2") fmt0 0 st3).2.temps[0]?
        = (tick cfg3 env0 fmt0 0 st3).2.temps[0]?
    ∧ (tick cfg3 (failedEnv env0 "id2") fmt0 0 st3).2.temps[1]? = some 0 :=
  ⟨(claim5_failure_isolation cfg3 env0 fmt0 0 st3 "id2" 0 (by decide)).1,
   ((claim5_failure_isolation cfg3 env0 fmt0 0 st3 "id2" 0 (by decide)).2.2.1
     (by decide)).1,
   (claim5_failure_isolation cfg3 env0 fmt0 0 st3 "id2" 1 (by decide)).2.2.2
     (by decide)⟩

/-- C7 counterexample: with seven configured sensors the snapshot handed to
the presentation layer does NOT contain every sensor's reading: the UI has
exactly six slots (s1..s6), so the seventh sensor's reading (21 °C here) is
read but absent from the snapshot. -/
theorem claim7_snapshot_cex :
    (tick cfg7 env0 fmt0 0 ⟨[], 0⟩).2.ui_temps[6]? = none
    ∧ (tick cfg7 env0 fmt0 0 ⟨[], 0⟩).2.temps[6]? = some 21 := by
  constructor <;> rfl

/-- C7 amended: whenever at most six sensors are configured (the
presentation layer has six slots) and there is one history per sensor, the
per-tick snapshot contains every sensor's current reading and its current
rendered history path, together with the aggregate energy value. -/
theorem claim7_snapshot (cfg : Config) (env : String → Option ℚ)
    (fmt : ℚ → String) (now : Nat) (st : LoopState)
    (h6 : cfg.sensors.length ≤ 6)
    (hlen : st.history.length = cfg.sensors.length) :
    (tick cfg env fmt now st).2.ui_temps = tickTemps env cfg.sensors
    ∧ (tick cfg env fmt now st).2.ui_paths
        = (tick cfg env fmt now st).1.history.map (fun h => toSvgCoords h.points)
    ∧ (tick cfg env fmt now st).2.ui_energy
        = energy_kwh cfg.boiler (tickTemps env cfg.sensors) := by
  have hh1 : (tick cfg env fmt now st).1.history.length = st.history.length := by
    by_cases hg : history_update_interval ≤ now - st.last_history_update
    · rw [(tick_update cfg env fmt now st hg).1, length_updateHistories]
    · rw [tick_no_update cfg env fmt now st (Nat.not_le.mp hg)]
  refine ⟨?_, ?_, rfl⟩
  · show (tickTemps env cfg.sensors).take 6 = tickTemps env cfg.sensors
    apply List.take_of_length_le
    rw [tickTemps, List.length_map]
    exact h6
  · show ((tick cfg env fmt now st).1.history.map (fun h => toSvgCoords h.points)).take 6
        = (tick cfg env fmt now st).1.history.map (fun h => toSvgCoords h.points)
    apply List.take_of_length_le
    rw [List.length_map, hh1, hlen]
    exact h6

/-- Concrete instantiation of `claim7_snapshot` at the three-sensor
configuration, with the gate open at instant 900. -/
theorem claim7_snapshot_witness :
    (tick cfg3 env0 fmt0 900 st3).2.ui_temps = tickTemps env0 cfg3.sensors
    ∧ (tick cfg3 env0 fmt0 900 st3).2.ui_paths
        = (tick cfg3 env0 fmt0 900 st3).1.history.map (fun h => toSvgCoords h.points)
    ∧ (tick cfg3 env0 fmt0 900 st3).2.ui_energy
        = energy_kwh cfg3.boiler (tickTemps env0 cfg3.sensors) :=
  claim7_snapshot cfg3 env0 fmt0 900 st3 (by decide) (by rfl)

/-- C10: a sensor whose startup read fails is seeded with 96 history points
all equal to the fallback default 20, while a read failure on a later tick
contributes the sentinel 0 to that tick's readings, publications and — when
the slow gate is open — history. -/
theorem claim10_seed_default_vs_sentinel (envA envB : String → Option ℚ)
    (cfg : Config) (fmt : ℚ → String) (t now : Nat) (st : LoopState) (i : Nat)
    (hi : i < cfg.sensors.length) :
    (envA cfg.sensors[i].id = none →
        (initHistories envA cfg.sensors t)[i]? = some (SensorHistory.new 20 t))
    ∧ (SensorHistory.new 20 t).points = List.replicate 96 20
    ∧ ((20 : ℚ) ≠ 0)
    ∧ (envB cfg.sensors[i].id = none →
        (tick cfg envB fmt now st).2.temps[i]? = some 0
        ∧ (tick cfg envB fmt now st).2.sensor_publishes[i]?
            = some (cfg.mqtt.base_topic ++ "/" ++ cfg.sensors[i].name, fmt 0)
        ∧ (history_update_interval ≤ now - st.last_history_update →
            (tick cfg envB fmt now st).1.history[i]?
              = (st.history[i]?).map (fun h => h.add_point 0 now))) := by
  have hget : cfg.sensors[i]? = some cfg.sensors[i] :=
    List.getElem?_eq_getElem hi
  refine ⟨?_, rfl, by norm_num, ?_⟩
  · intro h
    rw [initHistories, List.getElem?_map, hget]
    simp [h]
  · intro h
    have ht : (tickTemps envB cfg.sensors)[i]? = some 0 := by
      rw [tickTemps, List.getElem?_map, hget]
      simp [read_result, h]
    refine ⟨ht, ?_, ?_⟩
    · rw [tick_sensor_publishes, List.getElem?_map, hget]
      simp [read_result, h]
    · intro hg
      rw [(tick_update cfg envB fmt now st hg).1, getElem?_updateHistories, ht]
      cases st.history[i]? <;> rfl

/-- Concrete instantiation of `claim10_seed_default_vs_sentinel`: with reads
of "id2" failing both at startup and on a tick, the second sensor is seeded
with `SensorHistory.new 20`, reads the sentinel 0 on the tick, and the
open-gate history update appends that 0. -/
theorem claim10_seed_default_vs_sentinel_witness :
    (initHistories (failedEnv env0 "id2") cfg3.sensors 0)[1]?
        = some (SensorHistory.new 20 0)
    ∧ (tick cfg3 (failedEnv env0 "id2") fmt0 900 st3).2.temps[1]? = some 0
    ∧ (tick cfg3 (failedEnv env0 "id2") fmt0 900 st3).1.history[1]?
        = (st3.history[1]?).map (fun h => h.add_point 0 900) :=
  ⟨(claim10_seed_default_vs_sentinel (failedEnv env0 "id2") (failedEnv env0 "id2")
      cfg3 fmt0 0 900 st3 1 (by decide)).1 (by rfl),
   ((claim10_seed_default_vs_sentinel (failedEnv env0 "id2") (failedEnv env0 "id2")
      cfg3 fmt0 0 900 st3 1 (by decide)).2.2.2 (by rfl)).1,
   ((claim10_seed_default_vs_sentinel (failedEnv env0 "id2") (failedEnv env0 "id2")
      cfg3 fmt0 0 900 st3 1 (by decide)).2.2.2 (by rfl)).2.2 (by decide)⟩

end Boilert
